import Mathlib

/-!
Verification of the RoboPadal Americano core (src/src/App.tsx).

The TypeScript source is shallowly embedded: the data model (Player, Team,
Match, Session), the schedule generator (pairingsByRound, generateMatches),
the standings aggregator, the display-order computation (groupedMatches) and
the session commands (createSession, updateScore, toggleCourtSwap,
updateTotalPoints) are translated to executable Lean definitions, and the
spec claims are proved or refuted against them.

JavaScript numbers used as scores are modelled as Int (scores are integers
throughout the app; NaN is modelled as an absent Option value at the one
input point that can see it).  The JS object Record<number, boolean> with
falsy lookups for absent keys is modelled as a total function Nat → Bool.
The JS Map in the standings code is modelled as Nat → Option (Int × Nat).
Array.prototype.sort (stable) is modelled by List.insertionSort (also
stable) with the same comparator read as a "comparator ≤ 0" relation;
localeCompare is modelled by the lexicographic order on the character
lists of the names.
-/

structure Player where
  id : Nat
  name : String
deriving DecidableEq

structure Team where
  id : String
  players : Nat × Nat
deriving DecidableEq

structure Match where
  id : String
  round : Nat
  court : Nat
  teamA : Team
  teamB : Team
  scoreA : Option Int
deriving DecidableEq

structure Session where
  name : String
  players : List Player
  «matches» : List Match
  courtSwapByRound : Nat → Bool

structure StandingsRow where
  player : Player
  points : Int
  matchesPlayed : Nat
deriving DecidableEq

/-- The fixed 7×4 pairing table `pairingsByRound` of App.tsx. -/
def pairingsByRound : List (List (Nat × Nat)) :=
  [ [(0, 7), (1, 6), (2, 5), (3, 4)],
    [(0, 6), (7, 5), (1, 4), (2, 3)],
    [(0, 5), (6, 4), (7, 3), (1, 2)],
    [(0, 4), (5, 3), (6, 2), (7, 1)],
    [(0, 3), (4, 2), (5, 1), (6, 7)],
    [(0, 2), (3, 1), (4, 7), (5, 6)],
    [(0, 1), (2, 7), (3, 6), (4, 5)] ]

def teamsForRound (roundIdx : Nat) (roundPairings : List (Nat × Nat)) : List Team :=
  roundPairings.mapIdx (fun teamIdx pair =>
    { id := "r" ++ toString (roundIdx + 1) ++ "t" ++ toString (teamIdx + 1)
      players := pair })

def defaultTeam : Team := { id := "", players := (0, 0) }

def matchesForRound (roundIdx : Nat) (roundPairings : List (Nat × Nat)) : List Match :=
  let teams := teamsForRound roundIdx roundPairings
  [ { id := "r" ++ toString (roundIdx + 1) ++ "c1"
      round := roundIdx + 1
      court := 1
      teamA := teams.getD 0 defaultTeam
      teamB := teams.getD 1 defaultTeam
      scoreA := none },
    { id := "r" ++ toString (roundIdx + 1) ++ "c2"
      round := roundIdx + 1
      court := 2
      teamA := teams.getD 2 defaultTeam
      teamB := teams.getD 3 defaultTeam
      scoreA := none } ]

/-- `generateMatches` of App.tsx: two matches per round, courts 1 and 2,
teams taken from the pairing table in listed order, scores unplayed. -/
def generateMatches : List Match :=
  (pairingsByRound.mapIdx matchesForRound).flatten

def inTeam (pid : Nat) (t : Team) : Bool :=
  t.players.1 == pid || t.players.2 == pid

def inMatch (pid : Nat) (m : Match) : Bool :=
  inTeam pid m.teamA || inTeam pid m.teamB

def teamsOf (m : Match) : List Team := [m.teamA, m.teamB]

def trimChars (l : List Char) : List Char :=
  ((l.dropWhile Char.isWhitespace).reverse.dropWhile Char.isWhitespace).reverse

/-- JS `String.prototype.trim()`: strip leading and trailing whitespace. -/
def jsTrim (s : String) : String := String.mk (trimChars s.data)

/-- JS `String.prototype.toLowerCase()`: lower-case character by character. -/
def jsToLower (s : String) : String := String.mk (s.data.map Char.toLower)

def allTeams : List Team := generateMatches.flatMap teamsOf

def teammates (i j : Nat) (t : Team) : Bool :=
  (t.players.1 == i && t.players.2 == j) || (t.players.1 == j && t.players.2 == i)

/-- The mutable `Map<number, {points, matchesPlayed}>` of the standings
computation, modelled as a function from player id. -/
abbrev Totals := Nat → Option (Int × Nat)

/-- One `row.points += pts; row.matchesPlayed += 1` step; a missing row is
skipped exactly as the `if (!row) return` in the source. -/
def addResult (totals : Totals) (playerId : Nat) (pts : Int) : Totals :=
  match totals playerId with
  | none => totals
  | some row => fun x => if x = playerId then some (row.1 + pts, row.2 + 1) else totals x

/-- The body of the `session.matches.forEach` in `standings`: an unplayed
match contributes nothing; a played one credits scoreA to both teamA players
and `totalPoints - scoreA` to both teamB players. -/
def applyMatch (totalPoints : Int) (totals : Totals) (m : Match) : Totals :=
  match m.scoreA with
  | none => totals
  | some scoreA =>
    let scoreB := totalPoints - scoreA
    let t1 := addResult totals m.teamA.players.1 scoreA
    let t2 := addResult t1 m.teamA.players.2 scoreA
    let t3 := addResult t2 m.teamB.players.1 scoreB
    addResult t3 m.teamB.players.2 scoreB

/-- `session.players.forEach((player) => totals.set(player.id, {0, 0}))`. -/
def initTotals (players : List Player) : Totals :=
  players.foldl (fun f p => fun x => if x = p.id then some (0, 0) else f x)
    (fun _ => none)

/-- The sort comparator `(a, b) => b.points - a.points || a.player.name
.localeCompare(b.player.name)` read as "comparator result ≤ 0": higher
points first, ties by ascending lexicographic name. -/
def standingsLE (a b : StandingsRow) : Prop :=
  b.points < a.points ∨ (b.points = a.points ∧ a.player.name.data ≤ b.player.name.data)

instance : DecidableRel standingsLE := fun a b => by
  unfold standingsLE; infer_instance

instance : IsTotal StandingsRow standingsLE :=
  ⟨fun a b => by
    unfold standingsLE
    rcases lt_trichotomy a.points b.points with h | h | h
    · exact Or.inr (Or.inl h)
    · rcases le_total a.player.name.data b.player.name.data with hn | hn
      · exact Or.inl (Or.inr ⟨h.symm, hn⟩)
      · exact Or.inr (Or.inr ⟨h, hn⟩)
    · exact Or.inl (Or.inl h)⟩

instance : IsTrans StandingsRow standingsLE :=
  ⟨fun a b c hab hbc => by
    unfold standingsLE at *
    rcases hab with h1 | ⟨h1, hn1⟩ <;> rcases hbc with h2 | ⟨h2, hn2⟩
    · exact Or.inl (by omega)
    · exact Or.inl (by omega)
    · exact Or.inl (by omega)
    · exact Or.inr ⟨by omega, le_trans hn1 hn2⟩⟩

/-- The `standings` memo of App.tsx for a session, at the ambient
`totalPoints` scale.  The non-null assertion `totals.get(player.id)!` is
modelled with a default that is never reached for ids present in `players`. -/
def standings (totalPoints : Int) (s : Session) : List StandingsRow :=
  let totals := s.«matches».foldl (applyMatch totalPoints) (initTotals s.players)
  let rows := s.players.map (fun p =>
    let row := (totals p.id).getD (0, 0)
    { player := p, points := row.1, matchesPlayed := row.2 })
  rows.insertionSort standingsLE

def TOTAL_ROUNDS : Nat := 7

/-- The court comparator `(a, b) => a.court - b.court` read as
"comparator result ≤ 0". -/
def courtLE (a b : Match) : Prop := a.court ≤ b.court

instance : DecidableRel courtLE := fun a b => by
  unfold courtLE; infer_instance

/-- One round of the `groupedMatches` memo: the round's matches sorted by
court, reversed via index accesses `[roundMatches[1], roundMatches[0]]` when
the round is swapped (an out-of-bounds JS access yields undefined, modelled
as Option). -/
def groupedRound (s : Session) (round : Nat) : List (Option Match) :=
  let isSwapped := s.courtSwapByRound round
  let roundMatches := (s.«matches».filter (fun m => m.round == round)).insertionSort courtLE
  if isSwapped then [roundMatches[1]?, roundMatches[0]?]
  else roundMatches.map some

/-- The `groupedMatches` memo of App.tsx: rounds 1..TOTAL_ROUNDS. -/
def groupedMatches (s : Session) : List (List (Option Match)) :=
  (List.range TOTAL_ROUNDS).map (fun idx => groupedRound s (idx + 1))

/-- The app-level state the commands act on: the global `totalPoints`
(24 or 32) and the current session, if any. -/
structure AppState where
  totalPoints : Int
  session : Option Session

/-- `updateTotalPoints` restricted to the session it re-clamps: every
present score becomes `Math.max(0, Math.min(nextTotalPoints, scoreA))`,
unplayed matches stay untouched. -/
def updateTotalPointsSession (nextTotalPoints : Int) (s : Session) : Session :=
  { s with «matches» := s.«matches».map (fun m =>
      match m.scoreA with
      | none => m
      | some a => { m with scoreA := some (max 0 (min nextTotalPoints a)) }) }

/-- `updateTotalPoints` of App.tsx: always sets the global scale, then
re-clamps the active session when there is one. -/
def updateTotalPoints (st : AppState) (nextTotalPoints : Int) : AppState :=
  { totalPoints := nextTotalPoints
    session := st.session.map (updateTotalPointsSession nextTotalPoints) }

/-- `updateScore` of App.tsx restricted to the session: clamps the value and
rewrites the matches whose id equals `matchId`. -/
def updateScoreSession (totalPoints : Int) (matchId : String) (scoreA : Int)
    (s : Session) : Session :=
  let clamped := max 0 (min totalPoints scoreA)
  { s with «matches» := s.«matches».map (fun m =>
      if m.id == matchId then { m with scoreA := some clamped } else m) }

/-- `updateScore` of App.tsx: a no-op without a session. -/
def updateScore (st : AppState) (matchId : String) (scoreA : Int) : AppState :=
  match st.session with
  | none => st
  | some s => { st with session := some (updateScoreSession st.totalPoints matchId scoreA s) }

/-- The score input handler of the App component: `Number(e.target.value)`
that is NaN (modelled as `none`) returns without calling `updateScore`. -/
def onScoreInput (st : AppState) (matchId : String) (value : Option Int) : AppState :=
  match value with
  | none => st
  | some v => updateScore st matchId v

/-- `toggleCourtSwap` restricted to the session: flips the entry at `round`
(absent keys read as false under the function model), keeping all others. -/
def toggleCourtSwapSession (round : Nat) (s : Session) : Session :=
  { s with courtSwapByRound := fun r =>
      if r = round then !s.courtSwapByRound round else s.courtSwapByRound r }

/-- `toggleCourtSwap` of App.tsx: a no-op without a session. -/
def toggleCourtSwap (st : AppState) (round : Nat) : AppState :=
  match st.session with
  | none => st
  | some s => { st with session := some (toggleCourtSwapSession round s) }

/-- `createSession` of App.tsx as a result value: the two early returns with
their messages become errors; success carries the new session.  The
date-dependent `defaultSessionName` is passed in as a parameter. -/
def createSessionResult (defaultName sessionNameInput : String)
    (playerInputs : List String) : Except String Session :=
  let names := playerInputs.map jsTrim
  if names.any (fun n => n == "") then
    Except.error "Please enter exactly 8 player names."
  else if (names.map jsToLower).dedup.length ≠ 8 then
    Except.error "Player names must be unique."
  else
    Except.ok
      { name := if jsTrim sessionNameInput == "" then defaultName else jsTrim sessionNameInput
        players := names.enum.map (fun p => { id := p.1, name := p.2 })
        «matches» := generateMatches
        courtSwapByRound := fun _ => false }

/-- `createSession` as a state transition: validation failure leaves the
state unchanged (only the message changes in the source), success installs
the new session. -/
def createSession (defaultName sessionNameInput : String)
    (playerInputs : List String) (st : AppState) : AppState :=
  match createSessionResult defaultName sessionNameInput playerInputs with
  | Except.error _ => st
  | Except.ok s => { st with session := some s }

/-- An 8-name roster P1..P8 used for concrete instances. -/
def exNames : List String := ["P1", "P2", "P3", "P4", "P5", "P6", "P7", "P8"]

/-- A freshly created session over P1..P8 (concrete instance). -/
def exSession : Session :=
  { name := "Test"
    players := exNames.enum.map (fun p => { id := p.1, name := p.2 })
    «matches» := generateMatches
    courtSwapByRound := fun _ => false }

/-- The example session with every match scored 16 (concrete instance). -/
def exFullSession : Session :=
  { exSession with «matches» := generateMatches.map (fun m => { m with scoreA := some 16 }) }

/-- A generated-schedule session with symbolic names, symbolic per-match
scores and a symbolic swap map; the shape every fully scored session of the
app has. -/
def fullScoredSession (sname : String) (nm : Nat → String) (f : Nat → Int)
    (swap : Nat → Bool) : Session :=
  { name := sname
    players := (List.range 8).map (fun i => { id := i, name := nm i })
    «matches» := generateMatches.mapIdx (fun i m => { m with scoreA := some (f i) })
    courtSwapByRound := swap }

/-- Sum of the points column of a standings table. -/
def pointsSum (rows : List StandingsRow) : Int :=
  (rows.map StandingsRow.points).sum

/-- The first generated match of `exFullSession` (round 1, court 1,
team (0,7) vs team (1,6)), scored 16. -/
def exMatch0 : Match :=
  { id := "r1c1", round := 1, court := 1
    teamA := { id := "r1t1", players := (0, 7) }
    teamB := { id := "r1t2", players := (1, 6) }
    scoreA := some 16 }

/-- The example session after the round-1 court-1 match was scored 30
under scale 32. -/
def exSession30 : Session := updateScoreSession 32 "r1c1" 30 exSession

/-- App state holding `exSession30` at scale 32. -/
def exState30 : AppState := { totalPoints := 32, session := some exSession30 }

/-- The frame/effect contract of UpdateScore claimed by C4, at ambient scale
`tp`, for target id `mid`, raw value `v` and session `s`. -/
def C4Prop (tp : Int) (mid : String) (v : Int) (s : Session) : Prop :=
  (updateScore { totalPoints := tp, session := some s } mid v =
      { totalPoints := tp, session := some (updateScoreSession tp mid v s) }) ∧
  (updateScoreSession tp mid v s).name = s.name ∧
  (updateScoreSession tp mid v s).players = s.players ∧
  (updateScoreSession tp mid v s).courtSwapByRound = s.courtSwapByRound ∧
  (updateScoreSession tp mid v s).«matches».length = s.«matches».length ∧
  (∀ (i : Nat) (m : Match), s.«matches»[i]? = some m → m.id ≠ mid →
      (updateScoreSession tp mid v s).«matches»[i]? = some m) ∧
  (∀ (i : Nat) (m : Match), s.«matches»[i]? = some m → m.id = mid →
      (updateScoreSession tp mid v s).«matches»[i]? =
        some { m with scoreA := some (max 0 (min tp v)) } ∧
      0 ≤ max 0 (min tp v) ∧ max 0 (min tp v) ≤ tp) ∧
  ((∀ m ∈ s.«matches», m.id ≠ mid) → updateScoreSession tp mid v s = s) ∧
  (∀ st : AppState, onScoreInput st mid none = st)

/-- The re-clamping contract of SetScoringScale claimed by C5, for app state
`st` and new scale `next`. -/
def C5Prop (st : AppState) (next : Int) : Prop :=
  (updateTotalPoints st next).totalPoints = next ∧
  (st.session = none → (updateTotalPoints st next).session = none) ∧
  ∀ s, st.session = some s →
    ∃ s2, (updateTotalPoints st next).session = some s2 ∧
      s2.name = s.name ∧ s2.players = s.players ∧
      s2.courtSwapByRound = s.courtSwapByRound ∧
      s2.«matches».length = s.«matches».length ∧
      (∀ (i : Nat) (m : Match), s.«matches»[i]? = some m → m.scoreA = none →
          s2.«matches»[i]? = some m) ∧
      (∀ (i : Nat) (m : Match) (a : Int), s.«matches»[i]? = some m → m.scoreA = some a →
          s2.«matches»[i]? = some { m with scoreA := some (min a next) } ∧
          min a next ≤ a ∧ (a ≤ next → min a next = a))

/-- The failure contract of CreateSession claimed by C6: a validation error
is reported and the state is left unchanged. -/
def C6FailProp (defaultName sessionNameInput : String)
    (playerInputs : List String) : Prop :=
  (∃ msg, createSessionResult defaultName sessionNameInput playerInputs =
      Except.error msg) ∧
  ∀ st, createSession defaultName sessionNameInput playerInputs st = st

/-- The success contract of CreateSession claimed by C6: participants get
ids in input order, the schedule is the generated one, no round is swapped,
and the session name is the trimmed input or the default when blank. -/
def C6OkProp (defaultName sessionNameInput : String)
    (playerInputs : List String) : Prop :=
  ∃ s, createSessionResult defaultName sessionNameInput playerInputs =
      Except.ok s ∧
    s.players = (playerInputs.map jsTrim).enum.map
        (fun p => { id := p.1, name := p.2 }) ∧
    s.name = (if jsTrim sessionNameInput = "" then defaultName
              else jsTrim sessionNameInput) ∧
    s.«matches» = generateMatches ∧
    (∀ r, s.courtSwapByRound r = false) ∧
    ∀ st, createSession defaultName sessionNameInput playerInputs st =
      { st with session := some s }

/-- C1: the generator deterministically yields 14 matches; for each round the
two matches carry courts 1 and 2, their teams are the pairing table's four
pairs in listed order (0 vs 1 on court 1, 2 vs 3 on court 2), and every
match starts unplayed. -/
theorem C1_generator_shape :
    generateMatches.length = 14 ∧
    ∀ ri : Fin 7,
      (generateMatches.filter (fun m => m.round == ri.1 + 1)).map
          (fun m => (m.court, m.teamA.players, m.teamB.players, m.scoreA)) =
        [ (1, (pairingsByRound.getD ri.1 []).getD 0 (0, 0),
              (pairingsByRound.getD ri.1 []).getD 1 (0, 0), none),
          (2, (pairingsByRound.getD ri.1 []).getD 2 (0, 0),
              (pairingsByRound.getD ri.1 []).getD 3 (0, 0), none) ] := by
  decide

/-- C2: every participant id 0..7 is in exactly one team per round and in
exactly 7 matches overall, and each of the 28 unordered id pairs is a
teammate pair in exactly one of the 28 generated teams. -/
theorem C2_schedule_fairness :
    (∀ pid : Fin 8, ∀ ri : Fin 7,
        ((generateMatches.filter (fun m => m.round == ri.1 + 1)).flatMap teamsOf).countP
            (fun t => inTeam pid.1 t) = 1) ∧
    (∀ pid : Fin 8, generateMatches.countP (fun m => inMatch pid.1 m) = 7) ∧
    (∀ i j : Fin 8,
        allTeams.countP (fun t => teammates i.1 j.1 t) = if i = j then 0 else 1) := by
  decide

/-- C3 counterexample: in the example session where all 14 matches are
scored, the sum of all standings points at scale 32 is 896 = 28 × 32, not
14 × 32 = 448 as claimed. -/
theorem C3_counterexample :
    (exFullSession.«matches».all (fun m => m.scoreA.isSome)) = true ∧
    pointsSum (standings 32 exFullSession) ≠ 14 * 32 := by
  decide

/-- C3 (amended): for every generated-schedule session in which all 14
matches carry a present score, the standings point totals sum to
28 × scoringScale (each match hands 2 × scoreA to team A's two players and
2 × (scale − scoreA) to team B's two players). -/
theorem C3_points_sum (sname : String) (nm : Nat → String) (f : Nat → Int)
    (swap : Nat → Bool) (scale : Int) :
    pointsSum (standings scale (fullScoredSession sname nm f swap)) = 28 * scale := by
  unfold pointsSum standings
  rw [List.Perm.sum_eq (List.Perm.map _ (List.perm_insertionSort _ _))]
  simp +decide [fullScoredSession, generateMatches, pairingsByRound, matchesForRound,
    teamsForRound, applyMatch, addResult, initTotals, List.range_succ]
  ring

/-- C4: with a non-negative ambient scale, updateScore clamps the raw value
into [0, scale] on the targeted match, leaves every other match and every
other session field unchanged, is the identity when no match carries the
id, and the NaN-guarded input handler is the identity on NaN. -/
theorem C4_update_score (tp : Int) (mid : String) (v : Int) (s : Session)
    (hscale : 0 ≤ tp) : C4Prop tp mid v s := by
  unfold C4Prop
  refine ⟨rfl, rfl, rfl, rfl, by simp [updateScoreSession], ?_, ?_, ?_, fun st => rfl⟩
  · intro i m hm hne
    have hb : (m.id == mid) = false := by simp [hne]
    simp [updateScoreSession, hm, hb, hne]
  · intro i m hm heq
    have hb : (m.id == mid) = true := by simp [heq]
    refine ⟨by simp [updateScoreSession, hm, hb, heq], le_max_left _ _,
      max_le hscale (min_le_left tp v)⟩
  · intro hall
    have hpt : ∀ m ∈ s.«matches»,
        (if m.id == mid then { m with scoreA := some (max 0 (min tp v)) } else m) = m :=
      fun m hm => by simp [hall m hm]
    show { s with «matches» := _ } = s
    rw [List.map_congr_left hpt, List.map_id']

/-- C4 witness: the contract instantiated at scale 32, match id r1c1 and the
out-of-range raw value 40 on the example session. -/
theorem C4_witness : (0 : Int) ≤ 32 ∧ C4Prop 32 "r1c1" 40 exSession :=
  ⟨by decide, C4_update_score 32 "r1c1" 40 exSession (by decide)⟩

/-- C5: for a new scale in {24, 32} and a session whose present scores are
non-negative, updateTotalPoints sets the global scale, re-clamps every
present score to min(score, newScale) (never increasing it, leaving values
already ≤ newScale untouched), keeps unplayed matches unplayed and all
other fields unchanged; and concretely a 30 recorded under scale 32 becomes
24 after switching to 24 and stays 24 after switching back to 32. -/
theorem C5_set_scale (st : AppState) (next : Int)
    (hnext : next = 24 ∨ next = 32)
    (hvalid : ∀ s, st.session = some s →
        ∀ m ∈ s.«matches», ∀ a : Int, m.scoreA = some a → 0 ≤ a) :
    C5Prop st next ∧
    (∃ s2, (updateTotalPoints (updateTotalPoints exState30 24) 32).session = some s2 ∧
        s2.«matches»[0]?.map Match.scoreA = some (some 24)) := by
  have h0 : (0 : Int) ≤ next := by rcases hnext with h | h <;> omega
  constructor
  · unfold C5Prop
    refine ⟨rfl, fun h => by simp [updateTotalPoints, h], fun s hs => ?_⟩
    refine ⟨updateTotalPointsSession next s, by simp [updateTotalPoints, hs],
      rfl, rfl, rfl, by simp [updateTotalPointsSession], ?_, ?_⟩
    · intro i m hm hnone
      simp [updateTotalPointsSession, hm, hnone]
    · intro i m a hm ha
      have h0a : (0 : Int) ≤ a :=
        hvalid s hs m (List.getElem?_mem hm) a ha
      have hclamp : max 0 (min next a) = min a next := by
        rw [min_comm]
        exact max_eq_right (le_min h0a h0)
      refine ⟨?_, min_le_left a next, fun hle => min_eq_left hle⟩
      simp [updateTotalPointsSession, hm, ha, hclamp]
  · exact ⟨_, rfl, by decide⟩

/-- C5 witness: the contract instantiated at new scale 24 on the example
state whose session has the round-1 court-1 match scored 30. -/
theorem C5_witness :
    ((24 : Int) = 24 ∨ (24 : Int) = 32) ∧
    (C5Prop exState30 24 ∧
      (∃ s2, (updateTotalPoints (updateTotalPoints exState30 24) 32).session = some s2 ∧
          s2.«matches»[0]?.map Match.scoreA = some (some 24))) :=
  ⟨Or.inl rfl, C5_set_scale exState30 24 (Or.inl rfl) (by decide)⟩

/-- A list has no duplicates exactly when deduplication keeps its length. -/
theorem dedup_length_eq_iff {α : Type} [DecidableEq α] {l : List α} :
    l.dedup.length = l.length ↔ l.Nodup := by
  constructor
  · intro h
    have he := (List.dedup_sublist l).eq_of_length h
    rw [← he]
    exact l.nodup_dedup
  · intro h
    rw [List.dedup_eq_self.mpr h]

/-- C6: with 8 raw names, createSession fails with a validation error and
leaves the state unchanged when some trimmed name is empty or the trimmed
names are not case-insensitively distinct; otherwise it succeeds, building
participants whose ids are the input order, the generated schedule, no
swapped round, and the trimmed session name (or the provided default when
that is blank). -/
theorem C6_create_session (defaultName sessionNameInput : String)
    (playerInputs : List String) (hlen : playerInputs.length = 8) :
    (((playerInputs.map jsTrim).any (fun n => n == "") = true ∨
        ¬ ((playerInputs.map jsTrim).map jsToLower).Nodup) →
      C6FailProp defaultName sessionNameInput playerInputs) ∧
    ((playerInputs.map jsTrim).any (fun n => n == "") = false →
      ((playerInputs.map jsTrim).map jsToLower).Nodup →
      C6OkProp defaultName sessionNameInput playerInputs) := by
  have llen : ((playerInputs.map jsTrim).map jsToLower).length = 8 := by
    simp [hlen]
  constructor
  · intro hfail
    by_cases hany : ((playerInputs.map jsTrim).any (fun n => n == "")) = true
    · refine ⟨⟨"Please enter exactly 8 player names.", ?_⟩, fun st => ?_⟩
      · unfold createSessionResult
        rw [if_pos hany]
      · unfold createSession createSessionResult
        rw [if_pos hany]
    · have hnodup : ¬ ((playerInputs.map jsTrim).map jsToLower).Nodup := by
        rcases hfail with h | h
        · exact absurd h hany
        · exact h
      have hdl : ((playerInputs.map jsTrim).map jsToLower).dedup.length ≠ 8 := by
        intro hc
        exact hnodup (dedup_length_eq_iff.mp (by rw [hc, llen]))
      refine ⟨⟨"Player names must be unique.", ?_⟩, fun st => ?_⟩
      · unfold createSessionResult
        rw [if_neg hany, if_pos hdl]
      · unfold createSession createSessionResult
        rw [if_neg hany, if_pos hdl]
  · intro hany hnodup
    have hany2 : ¬ ((playerInputs.map jsTrim).any (fun n => n == "")) = true := by
      rw [hany]
      exact Bool.false_ne_true
    have hdl : ¬ ((playerInputs.map jsTrim).map jsToLower).dedup.length ≠ 8 := by
      intro hc
      exact hc (by rw [dedup_length_eq_iff.mpr hnodup, llen])
    have hres : createSessionResult defaultName sessionNameInput playerInputs =
        Except.ok
          { name := if jsTrim sessionNameInput == "" then defaultName
                    else jsTrim sessionNameInput
            players := (playerInputs.map jsTrim).enum.map (fun p => { id := p.1, name := p.2 })
            «matches» := generateMatches
            courtSwapByRound := fun _ => false } := by
      unfold createSessionResult
      rw [if_neg hany2, if_neg hdl]
    refine ⟨_, hres, rfl, ?_, rfl, fun r => rfl, fun st => ?_⟩
    · by_cases hname : jsTrim sessionNameInput = "" <;> simp [hname]
    · unfold createSession
      rw [hres]

/-- C6 witness: the success contract instantiated on the P1..P8 roster. -/
theorem C6_witness :
    exNames.length = 8 ∧ C6OkProp "Americano 01.01" "Test" exNames :=
  ⟨by decide, (C6_create_session "Americano 01.01" "Test" exNames (by decide)).2
    (by decide) (by decide)⟩

/-- C7: for every session and scale, the standings output has one row per
participant (all of them, also those with no played match — the row list is
a permutation of the player list), ordered descending by points with ties
broken by ascending lexicographic name. -/
theorem C7_standings_output (tp : Int) (s : Session) :
    (standings tp s).length = s.players.length ∧
    ((standings tp s).map StandingsRow.player).Perm s.players ∧
    List.Sorted standingsLE (standings tp s) := by
  refine ⟨by simp [standings, List.length_insertionSort], ?_,
    List.sorted_insertionSort standingsLE _⟩
  have hp := (List.perm_insertionSort standingsLE
    (s.players.map (fun p =>
      let row := ((s.«matches».foldl (applyMatch tp) (initTotals s.players)) p.id).getD (0, 0)
      { player := p, points := row.1, matchesPlayed := row.2 }))).map StandingsRow.player
  refine hp.trans ?_
  rw [List.map_map]
  have hid : ∀ l : List Player, List.map (StandingsRow.player ∘ fun p =>
      let row := ((s.«matches».foldl (applyMatch tp) (initTotals s.players)) p.id).getD (0, 0)
      { player := p, points := row.1, matchesPlayed := row.2 }) l = l :=
    fun l => List.map_id'' (fun p => rfl) l
  rw [hid]

/-- C8 counterexample: toggling round 8 — outside 1..7 — is not a no-op:
the resulting session differs from the original (its swap entry for round 8
flips from false to true), refuting the claimed range guard. -/
theorem C8_counterexample : toggleCourtSwapSession 8 exSession ≠ exSession := by
  intro h
  have h8 := congrArg (fun s => s.courtSwapByRound 8) h
  simp [toggleCourtSwapSession, exSession] at h8

/-- C8 (amended): toggleCourtSwap flips the swap entry of the given round —
any round, there is no range check — leaves every other round's entry and
every other session field unchanged, and is a no-op only when no session is
active. -/
theorem C8_toggle (s : Session) (round : Nat) :
    ((toggleCourtSwapSession round s).courtSwapByRound round
        = !s.courtSwapByRound round) ∧
    (∀ r, r ≠ round →
        (toggleCourtSwapSession round s).courtSwapByRound r = s.courtSwapByRound r) ∧
    (toggleCourtSwapSession round s).name = s.name ∧
    (toggleCourtSwapSession round s).players = s.players ∧
    (toggleCourtSwapSession round s).«matches» = s.«matches» ∧
    (∀ st : AppState, st.session = none → toggleCourtSwap st round = st) := by
  refine ⟨by simp [toggleCourtSwapSession],
    fun r hr => by simp [toggleCourtSwapSession, hr],
    rfl, rfl, rfl, fun st hst => ?_⟩
  cases st with
  | mk tp sess =>
    cases sess with
    | none => rfl
    | some s0 => simp at hst

/-- C8 witness: toggling round 3 leaves round 2's entry unchanged, and the
command is the identity on a state without a session. -/
theorem C8_witness :
    (toggleCourtSwapSession 3 exSession).courtSwapByRound 2
        = exSession.courtSwapByRound 2 ∧
    toggleCourtSwap { totalPoints := 32, session := none } 3
        = { totalPoints := 32, session := none } :=
  ⟨(C8_toggle exSession 3).2.1 2 (by decide),
   (C8_toggle exSession 3).2.2.2.2.2 { totalPoints := 32, session := none } rfl⟩

/-- C9: for a round in 1..7, toggling the court swap twice restores the
session — and with it the presented display order — exactly, and a single
toggle does not change any field of any match. -/
theorem C9_double_toggle (s : Session) (round : Nat)
    (h1 : 1 ≤ round) (h7 : round ≤ 7) :
    toggleCourtSwapSession round (toggleCourtSwapSession round s) = s ∧
    groupedMatches (toggleCourtSwapSession round (toggleCourtSwapSession round s))
      = groupedMatches s ∧
    (toggleCourtSwapSession round s).«matches» = s.«matches» := by
  have h2 : toggleCourtSwapSession round (toggleCourtSwapSession round s) = s := by
    cases s with
    | mk n p m c =>
      simp only [toggleCourtSwapSession]
      congr 1
      funext r
      by_cases h : r = round
      · subst h
        simp
      · simp [h]
  exact ⟨h2, by rw [h2], rfl⟩

/-- C9 witness: the double-toggle identity instantiated at round 1 on the
example session. -/
theorem C9_witness :
    1 ≤ 1 ∧ (1 : Nat) ≤ 7 ∧
    (toggleCourtSwapSession 1 (toggleCourtSwapSession 1 exSession) = exSession ∧
     groupedMatches (toggleCourtSwapSession 1 (toggleCourtSwapSession 1 exSession))
       = groupedMatches exSession ∧
     (toggleCourtSwapSession 1 exSession).«matches» = exSession.«matches») :=
  ⟨by decide, by decide, C9_double_toggle exSession 1 (by decide) (by decide)⟩

/-- C10: a present score never becomes unplayed: updateScore and
updateTotalPoints map every played match to a played match (position by
position), toggleCourtSwap leaves the match list untouched, and a failed
createSession leaves the whole state untouched. -/
theorem C10_played_monotone (tp v next : Int) (mid : String) (r : Nat) (s : Session) :
    (∀ (i : Nat) (m : Match), s.«matches»[i]? = some m → m.scoreA.isSome →
        ∃ m2, (updateScoreSession tp mid v s).«matches»[i]? = some m2 ∧
          m2.scoreA.isSome) ∧
    (∀ (i : Nat) (m : Match), s.«matches»[i]? = some m → m.scoreA.isSome →
        ∃ m2, (updateTotalPointsSession next s).«matches»[i]? = some m2 ∧
          m2.scoreA.isSome) ∧
    (toggleCourtSwapSession r s).«matches» = s.«matches» ∧
    (∀ defaultName nameInput inputs msg (st : AppState),
        createSessionResult defaultName nameInput inputs = Except.error msg →
        createSession defaultName nameInput inputs st = st) := by
  refine ⟨?_, ?_, rfl, ?_⟩
  · intro i m hm hsome
    by_cases hb : (m.id == mid) = true
    · have heq : m.id = mid := by simpa using hb
      exact ⟨{ m with scoreA := some (max 0 (min tp v)) },
        by simp [updateScoreSession, hm, hb, heq], rfl⟩
    · have hne : m.id ≠ mid := by simpa using hb
      exact ⟨m, by simp [updateScoreSession, hm, hb, hne], hsome⟩
  · intro i m hm hsome
    match hsc : m.scoreA with
    | none =>
      rw [hsc] at hsome
      exact absurd hsome (by simp)
    | some a =>
      exact ⟨{ m with scoreA := some (max 0 (min next a)) },
        by simp [updateTotalPointsSession, hm, hsc], rfl⟩
  · intro dn ni inputs msg st herr
    unfold createSession
    rw [herr]

/-- C10 witness: the monotonicity instantiated on the fully scored example
session at position 0, plus a failed creation on empty input leaving a
sessionless state unchanged. -/
theorem C10_witness :
    (∃ m2, (updateScoreSession 32 "zzz" 40 exFullSession).«matches»[0]? = some m2 ∧
        m2.scoreA.isSome) ∧
    (∃ m2, (updateTotalPointsSession 24 exFullSession).«matches»[0]? = some m2 ∧
        m2.scoreA.isSome) ∧
    createSession "D" "N" [] { totalPoints := 32, session := none }
      = { totalPoints := 32, session := none } :=
  ⟨(C10_played_monotone 32 40 24 "zzz" 3 exFullSession).1 0 exMatch0
      (by decide) (by decide),
   (C10_played_monotone 32 40 24 "zzz" 3 exFullSession).2.1 0 exMatch0
      (by decide) (by decide),
   (C10_played_monotone 32 40 24 "zzz" 3 exFullSession).2.2.2 "D" "N" []
      "Player names must be unique." _ rfl⟩
